import Mathlib

/-!
Verification of the Shepherd terminal session manager (ehayes2000/shepard).

This file gives a shallow embedding of the parts of the Rust source relevant
to the checked properties, and theorems settling each property:

* mouse-event parsing and scroll interception
  (`src/session_manager/mod.rs`: `parse_scroll_event`, `is_mouse_event`,
  `handle_normal_input`);
* the session / attached / detached typestate and session pairs
  (`src/session.rs`, `src/session_manager/session_pair.rs`);
* the reader-thread shutdown protocol (`src/session.rs`);
* the shell `TerminalMultiplexer`
  (`src/session_manager/ui/terminal_multiplexer.rs`);
* `SessionHistory` (`src/history.rs`) and `Config` (`src/config.rs`);
* the manager state machine: session creation, the NewSession dialog,
  the session selector (`src/session_manager/mod.rs`,
  `src/session_manager/ui/session_selector.rs`).

Bytes are modelled as `Nat` (the Rust code works on `u8` slices; all byte
comparisons in the embedded code are against constants below 256, and the
embedded definitions are faithful on arbitrary `Nat` payloads). External
collaborators (PTY, git, the filesystem, the vt100 emulator) appear as
explicit parameters of the embedded state.
-/

namespace Shepard

/-! ## Mouse-event parsing (`src/session_manager/mod.rs` lines 604-690) -/

/-- A byte is an ASCII digit (`'0'..='9'`). -/
def isDigitByte (b : Nat) : Bool := 48 ≤ b && b ≤ 57

/-- Numeric value of a list of ASCII digit bytes, most significant first. -/
def digitsVal (bs : List Nat) : Nat := bs.foldl (fun acc b => acc * 10 + (b - 48)) 0

/-- Model of `std::str::from_utf8` followed by `str::parse::<u8>` on a byte
slice: succeeds exactly on an optional leading `'+'` followed by one or more
ASCII digits whose value fits in `u8` (any other byte, including any
non-ASCII byte that would already make `from_utf8` fail, yields an error). -/
def parseU8 (bs : List Nat) : Option Nat :=
  let digits := if bs.head? = some 43 then bs.drop 1 else bs
  if digits ≠ [] ∧ digits.all isDigitByte ∧ digitsVal digits ≤ 255 then
    some (digitsVal digits)
  else
    none

/-- Terminator predicate for an SGR mouse event: `'M'` (press) or `'m'`
(release). -/
def isSgrTerm (b : Nat) : Bool := b = 77 || b = 109

/-- Loop body of `TuiSessionManager::parse_scroll_event`: walks the buffer
from position `pos` (represented by the remaining suffix `bs`), accumulating
the signed scroll delta.  SGR events `ESC [ < btn ; x ; y (M|m)` contribute
`+1` when `btn & 0b11000011 == 64` and `-1` when `== 65`; legacy events
`ESC [ M b x y` contribute via the same mask against `96` / `97`.  The walk
stops at the first position holding neither event form. -/
def parseScrollGo (fuel : Nat) (bs : List Nat) (delta : Int) : Int :=
  match fuel with
  | 0 => delta
  | fuel + 1 =>
    if bs.take 3 = [27, 91, 60] then
      match bs.findIdx? isSgrTerm with
      | some endOff =>
        let event := bs.take (endOff + 1)
        let afterLt := event.drop 3
        let delta' :=
          match afterLt.findIdx? (fun b => b = 59) with
          | some semiPos =>
            match parseU8 (afterLt.take semiPos) with
            | some button =>
              let baseButton := button &&& 195
              if baseButton = 64 then delta + 1
              else if baseButton = 65 then delta - 1
              else delta
            | none => delta
          | none => delta
        parseScrollGo fuel (bs.drop (endOff + 1)) delta'
      | none => delta
    else if 6 ≤ bs.length ∧ bs.take 3 = [27, 91, 77] then
      let button := bs.getD 3 0
      let baseButton := button &&& 195
      let delta' :=
        if baseButton = 96 then delta + 1
        else if baseButton = 97 then delta - 1
        else delta
      parseScrollGo fuel (bs.drop 6) delta'
    else
      delta

/-- `TuiSessionManager::parse_scroll_event`: sum of scroll deltas over the
leading run of mouse events; `none` when the sum is zero.  The fuel
`bs.length` bounds the loop iteration count. -/
def parse_scroll_event (bs : List Nat) : Option Int :=
  let total := parseScrollGo bs.length bs 0
  if total ≠ 0 then some total else none

/-- Loop of `TuiSessionManager::is_mouse_event`, again with the iteration
count bounded by an explicit fuel (each iteration consumes at least one
byte): every position must start an SGR or legacy mouse event. -/
def isMouseGo (fuel : Nat) (bs : List Nat) : Bool :=
  match fuel with
  | 0 => bs.isEmpty
  | fuel + 1 =>
    if bs.isEmpty then true
    else if bs.take 3 = [27, 91, 60] then
      match bs.findIdx? isSgrTerm with
      | some endOff => isMouseGo fuel (bs.drop (endOff + 1))
      | none => false
    else if 6 ≤ bs.length ∧ bs.take 3 = [27, 91, 77] then
      isMouseGo fuel (bs.drop 6)
    else
      false

/-- `TuiSessionManager::is_mouse_event`: true iff the buffer is non-empty and
consists entirely of concatenated mouse events (the Rust loop returns
`pos > 0` after consuming the whole buffer). -/
def is_mouse_event (bs : List Nat) : Bool :=
  !bs.isEmpty && isMouseGo bs.length bs

/-! ## Sessions (`src/session.rs`)

A `Session` owns the PTY and child process; those are external.  The state
observable to the manager is the `active` atomic, the `session_error` cell,
and the byte stream written through the shared writer (modelled as the list
of bytes the child has received via `write_input`). -/

/-- Manager-observable state of a `Session` (`src/session.rs` line 109). -/
structure Session where
  active : Bool
  sessionError : Option String
  /-- Bytes written to the PTY master via `write_input` (received by the
  child), in order. -/
  received : List Nat
deriving DecidableEq, Repr

/-- `Session::is_dead`: the reader thread recorded a `session_error`. -/
def Session.is_dead (s : Session) : Bool := s.sessionError.isSome

/-- Typestate wrapper: session attached to the terminal. -/
structure AttachedSession where
  s : Session
deriving DecidableEq, Repr

/-- Typestate wrapper: background session. -/
structure DetachedSession where
  s : Session
deriving DecidableEq, Repr

/-- A freshly spawned session (`AttachedSession::new`): `active` starts true,
no error recorded, nothing written yet.  The spawned command, args and cwd
configure the external child process. -/
def AttachedSession.spawn : AttachedSession := ⟨⟨true, none, []⟩⟩

def AttachedSession.is_dead (a : AttachedSession) : Bool := a.s.is_dead

def DetachedSession.is_dead (d : DetachedSession) : Bool := d.s.is_dead

/-- `AttachedSession::detach`: store `false` into the `active` atomic. -/
def AttachedSession.detach (a : AttachedSession) : DetachedSession :=
  ⟨{ a.s with active := false }⟩

/-- `DetachedSession::attach`: store `true` into the `active` atomic.  The
Rust signature returns `anyhow::Result`, but the body is unconditionally
`Ok(..)`, so the model is total. -/
def DetachedSession.attach (d : DetachedSession) : AttachedSession :=
  ⟨{ d.s with active := true }⟩

/-- `AttachedSession::write_input`: write all bytes to the PTY writer and
flush.  Write failures are environmental (the child may have died); every
caller in the manager discards the `Result`, so the model records the bytes
unconditionally. -/
def AttachedSession.write_input (a : AttachedSession) (data : List Nat) : AttachedSession :=
  ⟨{ a.s with received := a.s.received ++ data }⟩

/-! ## Reader-thread shutdown protocol (`src/session.rs` lines 139-144 and
250-324)

`Session::shutdown` does a non-blocking send on the bounded(1) shutdown
channel and kills the child.  Each iteration of the reader-thread loop first
polls that channel (`try_recv`) and breaks when signalled; only the read
branches store into `session_error`.  One loop iteration is modelled as an
atomic step parameterised by the outcome the pending `read` would produce. -/

/-- Outcome of one `reader.read(&mut buf)` call together with the PTY size
bookkeeping that follows it in the loop body. -/
inductive ReadOutcome where
  /-- `Ok(0)`: EOF, the child exited. -/
  | eof
  /-- `Ok(n)` with the size query and any resize succeeding: bytes are fed to
  the parser and the loop continues. -/
  | data
  /-- `Ok(n)` but `master.get_size()` failed. -/
  | sizeQueryFailed (e : String)
  /-- `Ok(n)`, the size changed, and `master.resize(..)` failed. -/
  | resizeFailed (e : String)
  /-- `Err(e)`; `eio` is true when `e.kind() == ErrorKind::Other` (EIO,
  treated as the child exiting). -/
  | readError (eio : Bool) (e : String)
deriving DecidableEq, Repr

/-- Reader-thread-relevant session state: the shutdown channel (true when a
`()` is pending), the `session_error` cell, and whether the reader loop has
exited. -/
structure ReaderState where
  shutdownSignaled : Bool
  sessionError : Option String
  exited : Bool
deriving DecidableEq, Repr

/-- `Session::shutdown`: `try_send(())` on the bounded(1) channel (a pending
signal stays pending) and kill the child.  Killing only affects the outcome
of future reads, which the model quantifies over. -/
def ReaderState.shutdown (st : ReaderState) : ReaderState :=
  { st with shutdownSignaled := true }

/-- `Session::is_dead` in terms of the reader state. -/
def ReaderState.is_dead (st : ReaderState) : Bool := st.sessionError.isSome

/-- One full iteration of the reader-thread loop, starting at the loop head:
poll the shutdown channel (break when signalled, storing nothing), otherwise
run the read with outcome `o` and handle it as the source does. -/
def reader_iteration (st : ReaderState) (o : ReadOutcome) : ReaderState :=
  if st.exited then st
  else if st.shutdownSignaled then
    { st with shutdownSignaled := false, exited := true }
  else
    match o with
    | .eof => { st with sessionError := some "Process exited", exited := true }
    | .data => st
    | .sizeQueryFailed e =>
      { st with sessionError := some ("PTY error: failed to get size: " ++ e), exited := true }
    | .resizeFailed e =>
      { st with sessionError := some ("PTY error: failed to resize: " ++ e), exited := true }
    | .readError eio e =>
      { st with
        sessionError := some (if eio then "Process exited" else "PTY read error: " ++ e),
        exited := true }

/-! ## Session pairs (`src/session_manager/session_pair.rs`) -/

/-- Which view is active in a pair. -/
inductive SessionView where
  | Claude
  | Shell
deriving DecidableEq, Repr

/-- Activity status from hook notifications. -/
inductive SessionActivity where
  | Active
  | Stopped
deriving DecidableEq, Repr

/-- `ActivePair`: the foreground session plus UI metadata. -/
structure ActivePair where
  name : String
  path : String
  view : SessionView
  claude : AttachedSession
  resumed : Bool
  scroll_offset : Nat
  activity : SessionActivity
deriving DecidableEq, Repr

/-- `BackgroundPair`: a backgrounded session plus UI metadata. -/
structure BackgroundPair where
  name : String
  path : String
  last_view : SessionView
  claude : DetachedSession
  resumed : Bool
  scroll_offset : Nat
  activity : SessionActivity
deriving DecidableEq, Repr

/-- `ActivePair::new`. -/
def ActivePair.new (name : String) (path : String) (claude : AttachedSession)
    (resumed : Bool) : ActivePair :=
  { name := name, path := path, view := .Claude, claude := claude,
    resumed := resumed, scroll_offset := 0, activity := .Active }

/-- `ActivePair::detach`. -/
def ActivePair.detach (p : ActivePair) : BackgroundPair :=
  { name := p.name, path := p.path, last_view := p.view,
    claude := p.claude.detach, resumed := p.resumed,
    scroll_offset := p.scroll_offset, activity := p.activity }

/-- `BackgroundPair::attach`.  The Rust signature returns `anyhow::Result`;
its only fallible step is `DetachedSession::attach`, which is infallible, so
the model is total. -/
def BackgroundPair.attach (p : BackgroundPair) : ActivePair :=
  { name := p.name, path := p.path, view := p.last_view,
    claude := p.claude.attach, resumed := p.resumed,
    scroll_offset := p.scroll_offset, activity := p.activity }

/-! ## Terminal multiplexer (`src/session_manager/ui/terminal_multiplexer.rs`) -/

/-- `TerminalMultiplexer`: ordered shell panes plus the active-pane index. -/
structure TerminalMultiplexer where
  panes : List AttachedSession
  active_pane : Nat
deriving DecidableEq, Repr

namespace TerminalMultiplexer

/-- `TerminalMultiplexer::new`. -/
def new : TerminalMultiplexer := ⟨[], 0⟩

/-- `add_pane`: push and focus the new pane. -/
def add_pane (m : TerminalMultiplexer) (session : AttachedSession) : TerminalMultiplexer :=
  let panes := m.panes ++ [session]
  { panes := panes, active_pane := panes.length - 1 }

/-- `close_active_pane`: remove and return the active pane, then clamp the
index.  `Vec::remove` panics when the index is out of bounds; the model
(reached only on states satisfying the invariant) uses `get?`/`eraseIdx`,
which agree with the source whenever `active_pane < panes.len()`. -/
def close_active_pane (m : TerminalMultiplexer) :
    Option AttachedSession × TerminalMultiplexer :=
  if m.panes.isEmpty then (none, m)
  else
    let session := m.panes.get? m.active_pane
    let panes := m.panes.eraseIdx m.active_pane
    let active :=
      if m.active_pane ≥ panes.length ∧ ¬panes.isEmpty then panes.length - 1
      else m.active_pane
    (session, { panes := panes, active_pane := active })

/-- `focus_left`: wraps around. -/
def focus_left (m : TerminalMultiplexer) : TerminalMultiplexer :=
  if m.panes.isEmpty then m
  else if m.active_pane = 0 then { m with active_pane := m.panes.length - 1 }
  else { m with active_pane := m.active_pane - 1 }

/-- `focus_right`: wraps around. -/
def focus_right (m : TerminalMultiplexer) : TerminalMultiplexer :=
  if m.panes.isEmpty then m
  else { m with active_pane := (m.active_pane + 1) % m.panes.length }

/-- `active_pane_mut` read view: the pane input is routed to. -/
def active_pane_get (m : TerminalMultiplexer) : Option AttachedSession :=
  m.panes.get? m.active_pane

/-- `is_empty`. -/
def is_empty (m : TerminalMultiplexer) : Bool := m.panes.isEmpty

/-- Loop of `remove_dead_panes`: scan with index `i`; remove a dead pane
(decrementing `active_pane` when `active_pane > 0 && active_pane >= i`) or
advance `i`. -/
def remove_dead_aux (fuel : Nat) (panes : List AttachedSession) (i : Nat) (active : Nat)
    (dead : List AttachedSession) : List AttachedSession × Nat × List AttachedSession :=
  match fuel with
  | 0 => (panes, active, dead)
  | fuel + 1 =>
    if h : i < panes.length then
      let pane := panes.get ⟨i, h⟩
      if pane.is_dead then
        let active' := if 0 < active ∧ i ≤ active then active - 1 else active
        remove_dead_aux fuel (panes.eraseIdx i) i active' (dead ++ [pane])
      else
        remove_dead_aux fuel panes (i + 1) active dead
    else
      (panes, active, dead)

/-- `remove_dead_panes`: remove panes whose `is_dead` is true, adjust
`active_pane`, and return the removed panes.  Each loop iteration either
removes a pane or advances `i`, so `panes.length - i` (here `panes.length`,
with `i = 0`) bounds the iteration count and serves as fuel. -/
def remove_dead_panes (m : TerminalMultiplexer) :
    TerminalMultiplexer × List AttachedSession :=
  let r := remove_dead_aux m.panes.length m.panes 0 m.active_pane []
  ({ panes := r.1, active_pane := r.2.1 }, r.2.2)

end TerminalMultiplexer

/-- Manager-driven multiplexer operations (those that mutate the pane list or
focus), for stating reachability. -/
inductive MuxOp where
  | add (session : AttachedSession)
  | closeActive
  | focusLeft
  | focusRight
  | removeDead
deriving Repr

/-- Apply one multiplexer operation. -/
def MuxOp.apply (m : TerminalMultiplexer) : MuxOp → TerminalMultiplexer
  | .add s => m.add_pane s
  | .closeActive => (m.close_active_pane).2
  | .focusLeft => m.focus_left
  | .focusRight => m.focus_right
  | .removeDead => (m.remove_dead_panes).1

/-- The multiplexer invariant: a non-empty pane list has an in-bounds active
index. -/
def muxInv (m : TerminalMultiplexer) : Prop :=
  m.panes ≠ [] → m.active_pane < m.panes.length

instance : DecidablePred muxInv := fun m => by unfold muxInv; infer_instance

/-! ## Session history (`src/history.rs`) -/

/-- Cap on recent entries per repository (`MAX_RECENT_PER_WORKSPACE`). -/
def MAX_RECENT_PER_WORKSPACE : Nat := 5

/-- A `{name, project_path}` history entry. -/
structure RecentSession where
  name : String
  project_path : String
deriving DecidableEq, Repr

/-- `SessionHistory`: per-repo recent-session lists.  The `HashMap<String,
VecDeque<..>>` with `entry(..).or_default()` access is modelled as a total
function defaulting to the empty list. -/
structure SessionHistory where
  recent_sessions : String → List RecentSession

/-- `SessionHistory::set_recent_session`: remove entries equal to the new one
(`retain`), push to the front, then pop from the back until the length is at
most `MAX_RECENT_PER_WORKSPACE` (equivalently, take the first 5).  The
trailing `self.save()` writes the JSON file, an external effect. -/
def SessionHistory.set_recent_session (h : SessionHistory) (repo_name : String)
    (session_name : String) (project_path : String) : SessionHistory :=
  let entry : RecentSession := ⟨session_name, project_path⟩
  let sessions := (h.recent_sessions repo_name).filter (fun s => s ≠ entry)
  let sessions := entry :: sessions
  let sessions := sessions.take MAX_RECENT_PER_WORKSPACE
  ⟨fun r => if r = repo_name then sessions else h.recent_sessions r⟩

/-- `SessionHistory::get_recent_session`: front of the repo's deque. -/
def SessionHistory.get_recent_session (h : SessionHistory) (repo_name : String) :
    Option RecentSession :=
  (h.recent_sessions repo_name).head?

/-- `SessionHistory::remove_by_name`. -/
def SessionHistory.remove_by_name (h : SessionHistory) (repo_name : String)
    (session_name : String) : SessionHistory :=
  ⟨fun r =>
    if r = repo_name then (h.recent_sessions r).filter (fun s => s.name ≠ session_name)
    else h.recent_sessions r⟩

/-! ## Config (`src/config.rs`)

`Path::join` is modelled on strings with a `/` separator.  The filesystem is
modelled as a map from paths to decoded `Config` values (JSON serialization
is an external collaborator). -/

/-- `Path::join` on the string model of paths. -/
def pathJoin (a b : String) : String := a ++ "/" ++ b

/-- `MostRecentSession` (legacy field of `Config`). -/
structure MostRecentSession where
  name : String
  path : String
deriving DecidableEq, Repr

/-- `Config`. -/
structure Config where
  claude_args : List String
  workflows_path : String
  recent_sessions : List (String × MostRecentSession)
deriving DecidableEq, Repr

/-- `Config::default`: `workflows_path` is `<home>/worktrees`;
`dirs::home_dir()` is the parameter. -/
def Config.defaultFor (home : String) : Config :=
  { claude_args := ["--dangerously-skip-permissions"],
    workflows_path := pathJoin home "worktrees",
    recent_sessions := [] }

/-- `Config::config_path`: `<home>/.shepard/config.json` (note the spelling
`.shepard` in the source, unlike `src/history.rs` which uses `.shepherd`). -/
def Config.config_path (home : String) : String :=
  pathJoin (pathJoin home ".shepard") "config.json"

/-- `SessionHistory::history_path`: `<home>/.shepherd/history.json`. -/
def SessionHistory.history_path (home : String) : String :=
  pathJoin (pathJoin home ".shepherd") "history.json"

/-- `Config::save`: write the config at `config_path`. -/
def Config.save (c : Config) (home : String) (fs : String → Option Config) :
    String → Option Config :=
  fun p => if p = Config.config_path home then some c else fs p

/-- `Config::load`: read the file at `config_path` when it exists; otherwise
construct the default and save it there.  Returns the config and the
filesystem after any default write. -/
def Config.load (home : String) (fs : String → Option Config) :
    Config × (String → Option Config) :=
  let path := Config.config_path home
  match fs path with
  | some c => (c, fs)
  | none =>
    let c := Config.defaultFor home
    (c, c.save home fs)

/-! ## UI support types (`src/session_manager/ui/`) -/

/-- Severity of a status message.  `status_bar.rs` declares only `Err`;
`mod.rs` additionally constructs informational messages via
`StatusMessage::info`, modelled by the `info` level. -/
inductive StatusLevel where
  | err
  | info
deriving DecidableEq, Repr

/-- `StatusMessage`. -/
structure StatusMessage where
  level : StatusLevel
  display_message : String
  log_message : String
deriving DecidableEq, Repr

/-- `StatusMessage::err`. -/
def StatusMessage.err (display log : String) : StatusMessage := ⟨.err, display, log⟩

/-- `StatusMessage::info`. -/
def StatusMessage.info (display log : String) : StatusMessage := ⟨.info, display, log⟩

/-- `UiMode` (`src/session_manager/mod.rs` line 65). -/
inductive UiMode where
  | Normal
  | HelpPopup
  | ListSessions
  | NewSession
  | KillConfirmation
  | QuitConfirmation
  | WorktreeCleanup
  | WorktreeDeleteConfirm
deriving DecidableEq, Repr

/-- `str::trim` modelled on the character list (drop whitespace from both
ends). -/
def strTrim (s : String) : String :=
  ⟨((s.data.dropWhile Char.isWhitespace).reverse.dropWhile Char.isWhitespace).reverse⟩

/-- ASCII lowering of one character (`str::to_lowercase` restricted to the
ASCII names and paths the manager handles). -/
def asciiLower (c : Char) : Char :=
  if 65 ≤ c.toNat ∧ c.toNat ≤ 90 then Char.ofNat (c.toNat + 32) else c

/-- `str::to_lowercase` on the string model. -/
def strToLower (s : String) : String := ⟨s.data.map asciiLower⟩

/-- `str::starts_with` / `Path::strip_prefix` test on the string model. -/
def strStartsWith (s pre : String) : Bool := pre.data.isPrefixOf s.data

/-- Substring test on character lists, modelling `str::contains`. -/
def containsSeq (hay needle : List Char) : Bool :=
  if needle.isPrefixOf hay then true
  else
    match hay with
    | [] => needle.isEmpty
    | _ :: t => containsSeq t needle

/-- `str::contains` on the string model. -/
def strContains (hay needle : String) : Bool := containsSeq hay.toList needle.toList

/-- `SelectorItemKind`. -/
inductive SelectorItemKind where
  | Live
  | Recent
  | Worktree
deriving DecidableEq, Repr

/-- `SessionSelector` (`src/session_manager/ui/session_selector.rs`).
`state : ListState` is modelled by its selected index. -/
structure SessionSelector where
  query : String
  selected : Option Nat
  filtered_indices : List Nat
  active_index : Option Nat
  live_count : Nat
  recent_count : Nat
deriving DecidableEq, Repr

namespace SessionSelector

/-- `SessionSelector::new`. -/
def new : SessionSelector :=
  { query := "", selected := some 0, filtered_indices := [], active_index := none,
    live_count := 0, recent_count := 0 }

/-- `reset` (leaves `active_index` untouched, as the source does). -/
def reset (s : SessionSelector) : SessionSelector :=
  { s with
    query := ""
    filtered_indices := []
    selected := some 0
    live_count := 0
    recent_count := 0 }

/-- `set_active_index`. -/
def set_active_index (s : SessionSelector) (index : Option Nat) : SessionSelector :=
  { s with active_index := index }

/-- `set_counts`. -/
def set_counts (s : SessionSelector) (live_count recent_count : Nat) : SessionSelector :=
  { s with live_count := live_count, recent_count := recent_count }

/-- `push_char`. -/
def push_char (s : SessionSelector) (c : Char) : SessionSelector :=
  { s with query := s.query.push c }

/-- `pop_char`. -/
def pop_char (s : SessionSelector) : SessionSelector :=
  { s with query := s.query.dropRight 1 }

/-- `selected_original_index`. -/
def selected_original_index (s : SessionSelector) : Option Nat :=
  s.selected.bind fun i => s.filtered_indices.get? i

/-- `item_kind`. -/
def item_kind (s : SessionSelector) (idx : Nat) : SelectorItemKind :=
  if idx < s.live_count then .Live
  else if idx < s.live_count + s.recent_count then .Recent
  else .Worktree

/-- `selected_kind`. -/
def selected_kind (s : SessionSelector) : Option SelectorItemKind :=
  (s.selected_original_index).map s.item_kind

/-- `move_up`. -/
def move_up (s : SessionSelector) : SessionSelector :=
  if s.filtered_indices.isEmpty then s
  else
    let current := s.selected.getD 0
    let next := if current = 0 then s.filtered_indices.length - 1 else current - 1
    { s with selected := some next }

/-- `move_down`. -/
def move_down (s : SessionSelector) : SessionSelector :=
  if s.filtered_indices.isEmpty then s
  else
    let current := s.selected.getD 0
    let next := if current ≥ s.filtered_indices.length - 1 then 0 else current + 1
    { s with selected := some next }

/-- `update_filter`: recompute the matching indices and keep the selection in
range. -/
def update_filter (s : SessionSelector) (sessions : List (String × String)) :
    SessionSelector :=
  let queryLower := strToLower s.query
  let filtered :=
    ((sessions.enum).filter fun p =>
      if queryLower.isEmpty then true
      else strContains (strToLower p.2.1) queryLower
        || strContains (strToLower p.2.2) queryLower).map
      (fun p => p.1)
  let selected :=
    if filtered.isEmpty then none
    else if s.selected.getD 0 ≥ filtered.length then some (filtered.length - 1)
    else s.selected
  { s with filtered_indices := filtered, selected := selected }

end SessionSelector

/-! ## The session manager (`src/session_manager/mod.rs`) -/

/-- `path_to_display`: abbreviate a home-prefixed path with `~`
(`Path::strip_prefix` modelled on the string form). -/
def path_to_display (home path : String) : String :=
  if strStartsWith path (home ++ "/") then "~/" ++ path.drop (home.length + 1)
  else if path = home then "~/"
  else path

/-- `display_path_to_actual`: undo the `~` abbreviation. -/
def display_path_to_actual (home path_display : String) : String :=
  if strStartsWith path_display "~/" then home ++ "/" ++ path_display.drop 2
  else path_display

/-- Split a character list at a separator character (`str::split`). -/
def splitOnChar (sep : Char) : List Char → List (List Char)
  | [] => [[]]
  | c :: rest =>
    match splitOnChar sep rest with
    | [] => if c = sep then [[], []] else [[c]]
    | g :: gs => if c = sep then [] :: g :: gs else (c :: g) :: gs

/-- `Path::file_name` on the string model: the last non-empty `/`-separated
component. -/
def fileName (p : String) : Option String :=
  (((splitOnChar '/' p.data).filter (fun c => c ≠ [])).getLast?).map (fun l => ⟨l⟩)

/-- `u8::is_ascii_graphic`. -/
def isAsciiGraphic (b : Nat) : Bool := 33 ≤ b && b ≤ 126

/-- The manager state observable to the checked properties, plus its
environment.  `terminal`, the render widgets and the input channel are
external; `status_tx.send` is modelled by appending to `status_messages`.
The final fields model external collaborators that are fixed during a run:
the home directory, the git queries `get_current_repo_name` /
`get_current_project_path`, the `list_worktree_dirs` filesystem scan,
`Path::exists`, and the workflow's `pre_session_hook` (returning the
worktree path of `SessionMetadata` or a `StatusMessage` error). -/
structure TuiSessionManager where
  active : Option ActivePair
  background : List BackgroundPair
  mode : UiMode
  session_counter : Nat
  /-- `CreateDialog.input`. -/
  create_dialog : String
  status_messages : List StatusMessage
  selector_original_session : Option String
  selector_sessions : List (String × String)
  selector_live_count : Nat
  selector_recent_count : Nat
  session_selector : SessionSelector
  history : SessionHistory
  multiplexers : String → Option TerminalMultiplexer
  config : Config
  should_quit : Bool
  home : String
  repo_name : Option String
  project_path : Option String
  worktree_dirs : List String
  path_exists : String → Bool
  workflow_hook : String → Except StatusMessage String

namespace TuiSessionManager

/-- `worktree_path`: `<workflows_path>/<repo_name>/<session_name>`. -/
def worktree_path (m : TuiSessionManager) (repo_name session_name : String) : String :=
  pathJoin (pathJoin m.config.workflows_path repo_name) session_name

/-- `create_session`: spawn a fresh attached session (the command, args and
cwd configure the external child). -/
def create_session (_m : TuiSessionManager) (_command : String) (_args : List String)
    (_cwd : String) : AttachedSession :=
  AttachedSession.spawn

/-- `let _ = self.status_tx.send(msg)`. -/
def send_status (m : TuiSessionManager) (msg : StatusMessage) : TuiSessionManager :=
  { m with status_messages := m.status_messages ++ [msg] }

/-- `add_claude_session`: spawn, detach any current active pair into the
background, and make the new session active.  No name-uniqueness check is
performed. -/
def add_claude_session (m : TuiSessionManager) (name command : String)
    (args : List String) (cwd : String) (resumed : Bool) : TuiSessionManager :=
  let session := m.create_session command args cwd
  let background :=
    match m.active with
    | some old_pair => m.background ++ [old_pair.detach]
    | none => m.background
  { m with
    background := background
    active := some (ActivePair.new name cwd session resumed) }

/-- `new_named_claude_session`: run the workflow hook; on failure emit the
status message and set the mode to `NewSession`; on success record the
history entry and spawn claude in the returned path. -/
def new_named_claude_session (m : TuiSessionManager) (name : String) : TuiSessionManager :=
  match m.workflow_hook name with
  | .error status_msg => { m.send_status status_msg with mode := .NewSession }
  | .ok metadata_path =>
    let m' :=
      match m.repo_name, m.project_path with
      | some repo_name, some project_path =>
        { m with history := m.history.set_recent_session repo_name name project_path }
      | _, _ => m
    m'.add_claude_session name "claude" m.config.claude_args metadata_path false

/-- `handle_new_session_input`: the NewSession dialog key handler. -/
def handle_new_session_input (m : TuiSessionManager) (bytes : List Nat) :
    TuiSessionManager :=
  match bytes with
  | [] => m
  | b :: rest =>
    if b = 27 ∧ rest = [] then { m with create_dialog := "", mode := .Normal }
    else if b = 13 ∨ b = 10 then
      let input := m.create_dialog
      let m := { m with create_dialog := "" }
      let step :
          TuiSessionManager × String :=
        if strTrim input = "" then
          ({ m with session_counter := m.session_counter + 1 },
            "claude-" ++ toString (m.session_counter + 1))
        else (m, strTrim input)
      let m := step.1.new_named_claude_session step.2
      { m with mode := .Normal }
    else if b = 127 then { m with create_dialog := m.create_dialog.dropRight 1 }
    else if isAsciiGraphic b || b = 32 then
      { m with create_dialog := m.create_dialog.push (Char.ofNat b) }
    else m

/-- `switch_to_session_by_name`: no-op when already active; otherwise move
the named pair out of the background, detach the current active pair into
the background and attach the named one. -/
def switch_to_session_by_name (m : TuiSessionManager) (name : String) :
    TuiSessionManager × Bool :=
  let already_active : Bool :=
    match m.active with
    | some active => active.name == name
    | none => false
  if already_active then (m, true)
  else
    match m.background.findIdx? (fun p => p.name = name) with
    | some idx =>
      match m.background.get? idx with
      | some bg_pair =>
        let background := m.background.eraseIdx idx
        let background :=
          match m.active with
          | some old_pair => background ++ [old_pair.detach]
          | none => background
        ({ m with background := background, active := some bg_pair.attach }, true)
      | none => (m, false)
    | none => (m, false)

/-- `build_session_list`: live sessions (active first), then recent history
entries whose worktree path is not live, then worktree directories not
already listed. -/
def build_session_list (m : TuiSessionManager) :
    List (String × String) × Nat × Nat :=
  let live :=
    (match m.active with
     | some p => [(p.name, path_to_display m.home p.path)]
     | none => []) ++ m.background.map (fun p => (p.name, path_to_display m.home p.path))
  let live_count := live.length
  let live_paths :=
    (match m.active with | some p => [p.path] | none => []) ++ m.background.map (·.path)
  let recent_items :=
    match m.repo_name with
    | some rn =>
      (((m.history.recent_sessions rn).map (fun s => (s.name, m.worktree_path rn s.name))).filter
        (fun p => !live_paths.contains p.2)).map
        (fun p => (p.1, path_to_display m.home p.2))
    | none => []
  let recent_count := recent_items.length
  let recent_paths :=
    match m.repo_name with
    | some rn =>
      (m.history.recent_sessions rn).map (fun (s : RecentSession) => m.worktree_path rn s.name)
    | none => []
  let worktree_items :=
    (m.worktree_dirs.filter (fun p => !live_paths.contains p && !recent_paths.contains p)).map
      (fun p => ("", path_to_display m.home p))
  (live ++ recent_items ++ worktree_items, live_count, recent_count)

/-- `open_session_selector`: reset the selector, remember the original
active session, cache the session list and initialise the filter. -/
def open_session_selector (m : TuiSessionManager) : TuiSessionManager :=
  let sel := m.session_selector.reset
  let orig := m.active.map (fun p => p.name)
  let sel := if m.active.isSome then sel.set_active_index (some 0) else sel
  let bl := m.build_session_list
  let sel := (sel.set_counts bl.2.1 bl.2.2).update_filter bl.1
  { m with
    session_selector := sel
    selector_original_session := orig
    selector_sessions := bl.1
    selector_live_count := bl.2.1
    selector_recent_count := bl.2.2 }

/-- `preview_selected_session`: switch to the selected session (live entries
only) without closing the selector. -/
def preview_selected_session (m : TuiSessionManager) : TuiSessionManager :=
  if m.session_selector.selected_kind ≠ some .Live then m
  else
    match m.session_selector.selected_original_index with
    | some selected =>
      match m.selector_sessions.get? selected with
      | some (name, _) => (m.switch_to_session_by_name name).1
      | none => m
    | none => m

/-- `resume_recent_session`: resume a history entry with `--continue`. -/
def resume_recent_session (m : TuiSessionManager) (name path_display : String) :
    TuiSessionManager :=
  let path := display_path_to_actual m.home path_display
  if !m.path_exists path then
    m.send_status (StatusMessage.err "Path not found"
      ("Session path no longer exists: " ++ path))
  else
    let m := m.add_claude_session name "claude" ("--continue" :: m.config.claude_args) path true
    m.send_status (StatusMessage.info "Resumed session"
      ("Resumed " ++ name ++ " from history"))

/-- `start_worktree_session`: start a fresh session named after the worktree
directory. -/
def start_worktree_session (m : TuiSessionManager) (path_display : String) :
    TuiSessionManager :=
  let path := display_path_to_actual m.home path_display
  if !m.path_exists path then
    m.send_status (StatusMessage.err "Path not found"
      ("Directory no longer exists: " ++ path))
  else
    let name := (fileName path).getD "unnamed"
    let m := m.add_claude_session name "claude" m.config.claude_args path false
    m.send_status (StatusMessage.info "New session"
      ("Started session " ++ name ++ " in " ++ path))

/-- `handle_list_input`: the selector key handler. -/
def handle_list_input (m : TuiSessionManager) (bytes : List Nat) : TuiSessionManager :=
  match bytes with
  | [] => m
  | b :: rest =>
    if b = 27 then
      if rest = [] then
        let m :=
          match m.selector_original_session with
          | some original_name => (m.switch_to_session_by_name original_name).1
          | none => m
        { m with mode := .Normal }
      else if 3 ≤ bytes.length ∧ bytes.get? 1 = some 91 then
        match bytes.get? 2 with
        | some 65 => ({ m with session_selector := m.session_selector.move_up }).preview_selected_session
        | some 66 => ({ m with session_selector := m.session_selector.move_down }).preview_selected_session
        | _ => m
      else m
    else if b = 13 ∨ b = 10 then
      let m :=
        match m.session_selector.selected_kind with
        | some .Live => m
        | some .Recent =>
          match m.session_selector.selected_original_index with
          | some selected =>
            match m.selector_sessions.get? selected with
            | some (name, path_display) => m.resume_recent_session name path_display
            | none => m
          | none => m
        | some .Worktree =>
          match m.session_selector.selected_original_index with
          | some selected =>
            match m.selector_sessions.get? selected with
            | some (_, path_display) => m.start_worktree_session path_display
            | none => m
          | none => m
        | none => m
      { m with mode := .Normal }
    else if b = 127 then
      let sel := (m.session_selector.pop_char).update_filter m.selector_sessions
      ({ m with session_selector := sel }).preview_selected_session
    else if isAsciiGraphic b || b = 32 then
      let sel := (m.session_selector.push_char (Char.ofNat b)).update_filter m.selector_sessions
      ({ m with session_selector := sel }).preview_selected_session
    else m

/-- `handle_normal_input`: scroll events adjust `scroll_offset` (clamped at
`MAX_SCROLLBACK = 1000`) and are not forwarded; other all-mouse buffers are
dropped; anything else resets `scroll_offset` to 0 and is forwarded to the
active claude session (Claude view) or the active shell pane (Shell view). -/
def handle_normal_input (m : TuiSessionManager) (bytes : List Nat) : TuiSessionManager :=
  match m.active with
  | none => m
  | some pair =>
    let name := pair.name
    let view := pair.view
    match parse_scroll_event bytes with
    | some scroll_delta =>
      let pair :=
        if scroll_delta > 0 then
          { pair with scroll_offset := min (pair.scroll_offset + scroll_delta.toNat) 1000 }
        else
          { pair with scroll_offset := pair.scroll_offset - (-scroll_delta).toNat }
      { m with active := some pair }
    | none =>
      if is_mouse_event bytes then m
      else
        let pair := { pair with scroll_offset := 0 }
        match view with
        | .Claude =>
          if pair.claude.is_dead then { m with active := some pair }
          else { m with active := some { pair with claude := pair.claude.write_input bytes } }
        | .Shell =>
          let m := { m with active := some pair }
          match m.multiplexers name with
          | some mux =>
            match mux.active_pane_get with
            | some pane =>
              if pane.is_dead then m
              else
                let pane := pane.write_input bytes
                let mux := { mux with panes := mux.panes.set mux.active_pane pane }
                { m with multiplexers := fun n => if n = name then some mux else m.multiplexers n }
            | none => m
          | none => m

/-- Names of all live session pairs, active first. -/
def session_names (m : TuiSessionManager) : List String :=
  (match m.active with | some p => [p.name] | none => []) ++
    m.background.map (fun p => p.name)

end TuiSessionManager

/-! ## Concrete states used to evaluate the manager model -/

/-- An empty session history. -/
def historyEmpty : SessionHistory := ⟨fun _ => []⟩

/-- A concrete configuration. -/
def configFx : Config :=
  { claude_args := [], workflows_path := "/wt", recent_sessions := [] }

/-- A manager state with the given active and background pairs and a benign
environment (no git repo, no worktree directories, every path exists, a
workflow hook that always succeeds). -/
def managerFx (active : Option ActivePair) (background : List BackgroundPair) :
    TuiSessionManager :=
  { active := active, background := background, mode := .Normal,
    session_counter := 0, create_dialog := "", status_messages := [],
    selector_original_session := none, selector_sessions := [],
    selector_live_count := 0, selector_recent_count := 0,
    session_selector := SessionSelector.new, history := historyEmpty,
    multiplexers := fun _ => none, config := configFx, should_quit := false,
    home := "/home/u", repo_name := none, project_path := none,
    worktree_dirs := [], path_exists := fun _ => true,
    workflow_hook := fun _ => .ok "/wt/x" }

/-- Active pair `A` in `/p/A`. -/
def pairA : ActivePair := ActivePair.new "A" "/p/A" AttachedSession.spawn false

/-- Background pair `B` in `/p/B`. -/
def pairB : BackgroundPair := (ActivePair.new "B" "/p/B" AttachedSession.spawn false).detach

/-- Background pair `C` in `/p/C`. -/
def pairC : BackgroundPair := (ActivePair.new "C" "/p/C" AttachedSession.spawn false).detach

/-- Manager with session `A` active and `B`, `C` in the background, in the
selector mode. -/
def mgrABC : TuiSessionManager :=
  { managerFx (some pairA) [pairB, pairC] with mode := .ListSessions }

/-- The status message returned by the failing workflow hook below. -/
def wfErrMsg : StatusMessage := StatusMessage.err "Workflow failed" "boom"

/-- Manager in the NewSession dialog whose workflow hook fails. -/
def mgrNewSessionFail : TuiSessionManager :=
  { managerFx none [] with
    mode := .NewSession
    create_dialog := "feat"
    workflow_hook := fun _ => Except.error wfErrMsg }

/-- The C1 scenario input: `"hello"`, then the SGR scroll-up event
`ESC [ < 6 4 ; 1 ; 1 M`, then `"world"`. -/
def c1InputBytes : List Nat :=
  [104, 101, 108, 108, 111] ++ [27, 91, 60, 54, 52, 59, 49, 59, 49, 77] ++
    [119, 111, 114, 108, 100]

/-- The bytes of `"helloworld"`. -/
def helloworldBytes : List Nat :=
  [104, 101, 108, 108, 111, 119, 111, 114, 108, 100]

/-- The SGR scroll-up event `ESC [ < 6 4 ; 1 ; 1 M` alone. -/
def sgrScrollUpEvent : List Nat := [27, 91, 60, 54, 52, 59, 49, 59, 49, 77]

/-! ## Theorems -/

/-- A dead pane session (its reader recorded "Process exited"). -/
def deadSession : AttachedSession := ⟨⟨true, some "Process exited", []⟩⟩

/-- A two-pane multiplexer focused on the second pane. -/
def mux2 : TerminalMultiplexer :=
  ⟨[AttachedSession.spawn, AttachedSession.spawn], 1⟩

/-- The empty multiplexer satisfies the invariant. -/
theorem muxInv_new : muxInv TerminalMultiplexer.new := fun h => absurd rfl h

/-- `add_pane` establishes the invariant unconditionally. -/
theorem muxInv_add_pane (m : TerminalMultiplexer) (s : AttachedSession) :
    muxInv (m.add_pane s) := by
  intro _
  simp [TerminalMultiplexer.add_pane]

/-- `close_active_pane` preserves the invariant. -/
theorem muxInv_close (m : TerminalMultiplexer) : muxInv (m.close_active_pane).2 := by
  unfold TerminalMultiplexer.close_active_pane
  split
  · next he =>
    intro hne
    exact absurd (List.isEmpty_iff.mp he) hne
  · next he =>
    intro hne
    simp only at hne ⊢
    split
    · next hcond =>
      have hpos : 0 < (m.panes.eraseIdx m.active_pane).length :=
        List.length_pos.mpr hne
      omega
    · next hcond =>
      have hpos : ¬ (m.panes.eraseIdx m.active_pane).isEmpty := by
        simpa [List.isEmpty_iff] using hne
      rcases Decidable.not_and_iff_or_not.mp hcond with h1 | h2
      · omega
      · exact absurd hpos h2

/-- `focus_left` preserves the invariant. -/
theorem muxInv_focus_left (m : TerminalMultiplexer) (h : muxInv m) :
    muxInv m.focus_left := by
  unfold TerminalMultiplexer.focus_left
  split
  · exact h
  · split
    · intro hne
      have := List.length_pos.mpr hne
      simp only at this ⊢
      omega
    · intro hne
      have := h hne
      simp only at this ⊢
      omega

/-- `focus_right` preserves the invariant. -/
theorem muxInv_focus_right (m : TerminalMultiplexer) (h : muxInv m) :
    muxInv m.focus_right := by
  unfold TerminalMultiplexer.focus_right
  split
  · exact h
  · intro hne
    exact Nat.mod_lt _ (List.length_pos.mpr hne)

/-- Loop invariant of `remove_dead_aux`: an in-bounds (or vacuous) active
index stays in bounds (or the list empties). -/
theorem remove_dead_aux_inv (fuel : Nat) :
    ∀ (panes : List AttachedSession) (i active : Nat) (dead : List AttachedSession),
      active < panes.length ∨ panes.length = 0 →
      ((TerminalMultiplexer.remove_dead_aux fuel panes i active dead).2.1 <
          (TerminalMultiplexer.remove_dead_aux fuel panes i active dead).1.length ∨
        (TerminalMultiplexer.remove_dead_aux fuel panes i active dead).1.length = 0) := by
  induction fuel with
  | zero =>
    intro panes i active dead h
    simpa [TerminalMultiplexer.remove_dead_aux] using h
  | succ fuel ih =>
    intro panes i active dead h
    simp only [TerminalMultiplexer.remove_dead_aux]
    split
    · next hi =>
      split
      · apply ih
        rw [List.length_eraseIdx_of_lt hi]
        split
        · next hcond => omega
        · next hcond =>
          rcases not_and_or.mp hcond with h1 | h2 <;> omega
      · exact ih panes (i + 1) active dead h
    · next hi => exact h

/-- `remove_dead_panes` preserves the invariant. -/
theorem muxInv_remove_dead (m : TerminalMultiplexer) (h : muxInv m) :
    muxInv (m.remove_dead_panes).1 := by
  have h0 : m.active_pane < m.panes.length ∨ m.panes.length = 0 := by
    by_cases hne : m.panes = []
    · right; simp [hne]
    · left; exact h hne
  have haux := remove_dead_aux_inv m.panes.length m.panes 0 m.active_pane [] h0
  intro hne
  rcases haux with h1 | h2
  · exact h1
  · exact absurd (List.length_eq_zero.mp h2) hne

/-- Every multiplexer operation preserves the invariant. -/
theorem muxInv_apply (m : TerminalMultiplexer) (op : MuxOp) (h : muxInv m) :
    muxInv (MuxOp.apply m op) := by
  cases op with
  | add s => exact muxInv_add_pane m s
  | closeActive => exact muxInv_close m
  | focusLeft => exact muxInv_focus_left m h
  | focusRight => exact muxInv_focus_right m h
  | removeDead => exact muxInv_remove_dead m h

/-- The invariant holds along any operation sequence. -/
theorem muxInv_foldl : ∀ (ops : List MuxOp) (m : TerminalMultiplexer),
    muxInv m → muxInv (ops.foldl MuxOp.apply m)
  | [], _, h => h
  | op :: ops, m, h => muxInv_foldl ops _ (muxInv_apply m op h)

/-- C4.  (1) Every multiplexer reachable from the empty one by `add_pane`,
`close_active_pane`, `focus_left`, `focus_right` and `remove_dead_panes`
satisfies `active_pane < panes.len()` whenever the pane list is non-empty;
(2) `add_pane` appends and focuses the new pane (the active index becomes the
last index); (3) `close_active_pane` removes the active pane and clamps the
active index to `min active (len-1)` — in particular it stays in bounds. -/
theorem c4_multiplexer_invariant :
    (∀ ops : List MuxOp, muxInv (ops.foldl MuxOp.apply TerminalMultiplexer.new)) ∧
    (∀ (m : TerminalMultiplexer) (s : AttachedSession),
      (m.add_pane s).panes = m.panes ++ [s] ∧
      (m.add_pane s).active_pane = (m.add_pane s).panes.length - 1) ∧
    (∀ m : TerminalMultiplexer, muxInv m → m.panes ≠ [] →
      ((m.close_active_pane).2.panes.length = m.panes.length - 1 ∧
        ((m.close_active_pane).2.panes ≠ [] →
          (m.close_active_pane).2.active_pane <
            (m.close_active_pane).2.panes.length) ∧
        ((m.close_active_pane).2.panes ≠ [] →
          (m.close_active_pane).2.active_pane =
            min m.active_pane ((m.close_active_pane).2.panes.length - 1)))) := by
  refine ⟨fun ops => muxInv_foldl ops _ muxInv_new, ?_, ?_⟩
  · intro m s
    constructor
    · rfl
    · simp [TerminalMultiplexer.add_pane]
  · intro m hinv hne
    have hlt : m.active_pane < m.panes.length := hinv hne
    have hemp : m.panes.isEmpty = false := by simpa [List.isEmpty_iff] using hne
    refine ⟨?_, fun h2 => muxInv_close m h2, ?_⟩
    · unfold TerminalMultiplexer.close_active_pane
      simp only [hemp]
      simp [List.length_eraseIdx_of_lt hlt]
    · intro h2
      unfold TerminalMultiplexer.close_active_pane at h2 ⊢
      simp only [hemp] at h2 ⊢
      simp only [Bool.false_eq_true, if_false] at h2 ⊢
      have hlen : (m.panes.eraseIdx m.active_pane).length = m.panes.length - 1 :=
        List.length_eraseIdx_of_lt hlt
      have hpos : 0 < (m.panes.eraseIdx m.active_pane).length :=
        List.length_pos.mpr (by simpa using h2)
      split
      · next hcond =>
        obtain ⟨hge, -⟩ := hcond
        omega
      · next hcond =>
        have hemp2 : ¬ (m.panes.eraseIdx m.active_pane).isEmpty := by
          rw [List.isEmpty_iff]
          intro hE
          rw [hE] at hpos
          simp at hpos
        rcases not_and_or.mp hcond with h1 | hc2
        · omega
        · exact absurd hemp2 hc2

/-- Witness for `c4_multiplexer_invariant`: a concrete operation sequence
(add a live pane, add a dead pane, reap, close, cycle focus) and a concrete
close on a two-pane multiplexer. -/
theorem c4_multiplexer_invariant_witness :
    muxInv ([MuxOp.add AttachedSession.spawn, MuxOp.add deadSession, MuxOp.removeDead,
      MuxOp.closeActive, MuxOp.focusRight].foldl MuxOp.apply TerminalMultiplexer.new) ∧
    (mux2.close_active_pane).2.panes.length = 1 ∧
    (mux2.close_active_pane).2.active_pane = 0 := by
  have h := c4_multiplexer_invariant
  have h3 := h.2.2 mux2 (by decide) (by decide)
  refine ⟨h.1 _, ?_, ?_⟩
  · rw [h3.1]
    decide
  · have h5 := h3.2.2 (by decide)
    rw [h5]
    decide

/-- C9.  For every `ActivePair`, detaching and then attaching restores the
pair's `name`, `path`, `view` (through `last_view`), `scroll_offset`,
`activity` and `resumed` fields. -/
theorem c9_detach_attach_roundtrip (p : ActivePair) :
    (p.detach.attach).name = p.name ∧
    (p.detach.attach).path = p.path ∧
    (p.detach.attach).view = p.view ∧
    (p.detach.attach).scroll_offset = p.scroll_offset ∧
    (p.detach.attach).activity = p.activity ∧
    (p.detach.attach).resumed = p.resumed :=
  ⟨rfl, rfl, rfl, rfl, rfl, rfl⟩

/-- C3 (counterexample).  After `shutdown()` returns, the very next
reader-loop iteration observes the shutdown signal at the top of the loop
and exits without storing any `session_error` — even when the pending read
would have reported EOF — so `is_dead()` does not become true within one
reader-thread iteration (and, the loop having exited, never does). -/
theorem c3_shutdown_counterexample :
    (reader_iteration (ReaderState.shutdown ⟨false, none, false⟩) .eof).exited = true ∧
    (reader_iteration (ReaderState.shutdown ⟨false, none, false⟩) .eof).is_dead = false := by
  decide

/-- C3 (amended).  After `shutdown()` returns, the reader thread exits within
one further loop iteration, but via the shutdown branch, which records no
`session_error`: `is_dead()` is left exactly as it was before the exit. -/
theorem c3_shutdown_amended (st : ReaderState) (o : ReadOutcome)
    (h : st.exited = false) :
    (reader_iteration st.shutdown o).exited = true ∧
    (reader_iteration st.shutdown o).sessionError = st.sessionError := by
  simp [reader_iteration, ReaderState.shutdown, h]

/-- Witness for `c3_shutdown_amended` at a live reader with a pending data
read. -/
theorem c3_shutdown_amended_witness :
    (reader_iteration (ReaderState.shutdown ⟨false, none, false⟩) .data).exited = true ∧
    (reader_iteration (ReaderState.shutdown ⟨false, none, false⟩) .data).sessionError = none :=
  c3_shutdown_amended ⟨false, none, false⟩ .data rfl

/-- C2.  When Enter is pressed in the NewSession dialog and the workflow hook
fails, the status message is emitted, but the handler leaves the UI mode at
`Normal`, not `NewSession`: `new_named_claude_session` sets
`mode := NewSession` in its error branch (third conjunct), and
`handle_new_session_input` then unconditionally overwrites it with
`mode := Normal` after the call returns (first conjunct). -/
theorem c2_new_session_failure_mode :
    (mgrNewSessionFail.handle_new_session_input [13]).mode = UiMode.Normal ∧
    (mgrNewSessionFail.handle_new_session_input [13]).status_messages = [wfErrMsg] ∧
    (mgrNewSessionFail.new_named_claude_session "feat").mode = UiMode.NewSession := by
  decide

/-- C8.  Selector preview-and-revert: with `A` active and `B`, `C` in the
background, opening the selector and pressing arrow-down twice previews `B`
and then `C`; Escape reverts to `A` with `B`, `C` back in the background in
their original order, and closes the selector. -/
theorem c8_selector_preview_revert :
    ((mgrABC.open_session_selector).handle_list_input [27, 91, 66]).active.map
      (fun p => p.name) = some "B" ∧
    (((mgrABC.open_session_selector).handle_list_input [27, 91, 66]).handle_list_input
      [27, 91, 66]).active.map (fun p => p.name) = some "C" ∧
    ((((mgrABC.open_session_selector).handle_list_input [27, 91, 66]).handle_list_input
      [27, 91, 66]).handle_list_input [27]).active.map (fun p => p.name) = some "A" ∧
    ((((mgrABC.open_session_selector).handle_list_input [27, 91, 66]).handle_list_input
      [27, 91, 66]).handle_list_input [27]).background.map (fun p => p.name) = ["B", "C"] ∧
    ((((mgrABC.open_session_selector).handle_list_input [27, 91, 66]).handle_list_input
      [27, 91, 66]).handle_list_input [27]).mode = UiMode.Normal := by
  decide

/-- C1 (counterexample).  On the buffer `"hello" + ESC[<64;1;1M + "world"`
the input handler forwards the **entire** buffer — the mouse bytes included —
to the active claude session (not `"helloworld"`), and `scroll_offset` is
reset to 0 without ever being incremented: `parse_scroll_event` stops at the
leading non-mouse byte and finds no scroll delta at all. -/
theorem c1_scroll_interception_counterexample :
    ((managerFx (some pairA) []).handle_normal_input c1InputBytes).active.map
      (fun p => p.claude.s.received) = some c1InputBytes ∧
    c1InputBytes ≠ helloworldBytes ∧
    ((managerFx (some pairA) []).handle_normal_input c1InputBytes).active.map
      (fun p => p.scroll_offset) = some 0 ∧
    parse_scroll_event c1InputBytes = none := by
  decide

/-- C1 (amended).  Scroll interception only applies to buffers that begin
with a mouse event.  For `"hello" + ESC[<64;1;1M + "world"` the parse finds
no scroll events (`none`), the buffer is not mouse-only, so `scroll_offset`
is reset to 0 (the intermediate value 1 never occurs) and the whole buffer is
forwarded verbatim to the claude session.  For the scroll event alone, the
delta 1 is applied to `scroll_offset` and nothing is forwarded. -/
theorem c1_scroll_interception_amended :
    parse_scroll_event c1InputBytes = none ∧
    is_mouse_event c1InputBytes = false ∧
    ((managerFx (some pairA) []).handle_normal_input c1InputBytes).active.map
      (fun p => (p.scroll_offset, p.claude.s.received)) = some (0, c1InputBytes) ∧
    parse_scroll_event sgrScrollUpEvent = some 1 ∧
    ((managerFx (some pairA) []).handle_normal_input sgrScrollUpEvent).active.map
      (fun p => (p.scroll_offset, p.claude.s.received)) = some (1, []) := by
  decide

/-- C6 (counterexample).  The config path is `<home>/.shepard/config.json`,
not `<home>/.shepherd/config.json` as the spec states (the history file, by
contrast, does live under `.shepherd`). -/
theorem c6_config_path_counterexample :
    Config.config_path "/home/user" = "/home/user/.shepard/config.json" ∧
    Config.config_path "/home/user" ≠ "/home/user/.shepherd/config.json" := by
  constructor
  · rfl
  · decide

/-- C6 (amended).  `Config::load` and `Config::save` read and write the file
`<home>/.shepard/config.json` (spelling `.shepard`), writing the defaults
there when the file is missing; the path differs from the spec's
`<home>/.shepherd/config.json` for every home directory. -/
theorem c6_config_path_amended (home : String) (fs : String → Option Config)
    (hmiss : fs (Config.config_path home) = none) :
    (Config.load home fs).1 = Config.defaultFor home ∧
    (Config.load home fs).2 (Config.config_path home) = some (Config.defaultFor home) ∧
    (∀ c : Config, Config.save c home fs (Config.config_path home) = some c) ∧
    (∀ (fs2 : String → Option Config) (c : Config),
      fs2 (Config.config_path home) = some c → Config.load home fs2 = (c, fs2)) ∧
    Config.config_path home ≠ pathJoin (pathJoin home ".shepherd") "config.json" := by
  refine ⟨?_, ?_, ?_, ?_, ?_⟩
  · simp [Config.load, hmiss]
  · simp [Config.load, hmiss, Config.save]
  · intro c
    simp [Config.save]
  · intro fs2 c hc
    simp [Config.load, hc]
  · intro hcontra
    have hdata := congrArg String.data hcontra
    simp only [Config.config_path, pathJoin, String.data_append] at hdata
    have hlen := congrArg List.length hdata
    simp only [List.length_append] at hlen
    simp at hlen

/-- C5.  After `set_recent_session(repo, name, path)` the new entry is at
index 0 of the repo's list, the list stays duplicate-free (given the
data-model invariant that it was duplicate-free before), its length is at
most `MAX_RECENT_PER_WORKSPACE = 5`, and the lists of all other repos are
unchanged. -/
theorem c5_history_set_recent (h : SessionHistory) (repo sn pp : String)
    (hnd : (h.recent_sessions repo).Nodup) :
    ((h.set_recent_session repo sn pp).recent_sessions repo).head? =
      some ⟨sn, pp⟩ ∧
    ((h.set_recent_session repo sn pp).recent_sessions repo).Nodup ∧
    ((h.set_recent_session repo sn pp).recent_sessions repo).length ≤
      MAX_RECENT_PER_WORKSPACE ∧
    ∀ r, r ≠ repo →
      (h.set_recent_session repo sn pp).recent_sessions r = h.recent_sessions r := by
  refine ⟨?_, ?_, ?_, ?_⟩
  · simp [SessionHistory.set_recent_session, MAX_RECENT_PER_WORKSPACE]
  · have h1 : ((h.recent_sessions repo).filter
        (fun s => s ≠ (⟨sn, pp⟩ : RecentSession))).Nodup := hnd.filter _
    have h2 : (⟨sn, pp⟩ : RecentSession) ∉
        (h.recent_sessions repo).filter (fun s => s ≠ (⟨sn, pp⟩ : RecentSession)) := by
      simp [List.mem_filter]
    have h3 : ((⟨sn, pp⟩ : RecentSession) ::
        (h.recent_sessions repo).filter
          (fun s => s ≠ (⟨sn, pp⟩ : RecentSession))).Nodup :=
      List.nodup_cons.mpr ⟨h2, h1⟩
    simp only [SessionHistory.set_recent_session, if_pos rfl]
    exact (List.take_sublist _ _).nodup h3
  · simp only [SessionHistory.set_recent_session, if_pos rfl]
    exact List.length_take_le _ _
  · intro r hr
    simp [SessionHistory.set_recent_session, hr]

/-- Witness for `c5_history_set_recent` on a small concrete history. -/
theorem c5_history_set_recent_witness :
    (((⟨fun r => if r = "repo" then [⟨"old", "/q"⟩] else [⟨"z", "/z"⟩]⟩ :
        SessionHistory).set_recent_session "repo" "s1" "/p").recent_sessions
        "repo").head? = some ⟨"s1", "/p"⟩ ∧
    (((⟨fun r => if r = "repo" then [⟨"old", "/q"⟩] else [⟨"z", "/z"⟩]⟩ :
        SessionHistory).set_recent_session "repo" "s1" "/p").recent_sessions
        "repo").Nodup ∧
    (((⟨fun r => if r = "repo" then [⟨"old", "/q"⟩] else [⟨"z", "/z"⟩]⟩ :
        SessionHistory).set_recent_session "repo" "s1" "/p").recent_sessions
        "repo").length ≤ MAX_RECENT_PER_WORKSPACE ∧
    ((⟨fun r => if r = "repo" then [⟨"old", "/q"⟩] else [⟨"z", "/z"⟩]⟩ :
        SessionHistory).set_recent_session "repo" "s1" "/p").recent_sessions
        "other" = [⟨"z", "/z"⟩] := by
  have h := c5_history_set_recent
    ⟨fun r => if r = "repo" then [⟨"old", "/q"⟩] else [⟨"z", "/z"⟩]⟩ "repo" "s1" "/p"
    (by decide)
  refine ⟨h.1, h.2.1, h.2.2.1, ?_⟩
  have h4 := h.2.2.2 "other" (by decide)
  rw [h4]
  decide

/-- Manager state holding two sessions both named `a` (plus one named `b`),
produced by three `add_claude_session` calls from an empty manager. -/
def mgrDupNames : TuiSessionManager :=
  (((managerFx none []).add_claude_session "a" "claude" [] "/x" false).add_claude_session
    "b" "claude" [] "/x" false).add_claude_session "a" "claude" [] "/x" false

/-- C7 (counterexample).  `add_claude_session` performs no name-uniqueness
check: creating sessions named `a`, `b`, `a` from an empty manager yields an
active pair and background pairs whose names are `a`, `a`, `b` — not
pairwise distinct. -/
theorem c7_duplicate_names_counterexample :
    mgrDupNames.session_names = ["a", "a", "b"] ∧
    ¬ mgrDupNames.session_names.Nodup := by
  decide

/-- C7 (amended).  The session-creating operations do not enforce name
uniqueness; duplicates are reachable.  Pairwise-distinct names are preserved
exactly when the created session's name differs from the name of the active
pair and of every background pair (`resume_recent_session` and
`start_worktree_session` create through `add_claude_session`). -/
theorem c7_unique_names_amended (m : TuiSessionManager) (name command cwd : String)
    (args : List String) (resumed : Bool)
    (hnd : m.session_names.Nodup) (hfresh : name ∉ m.session_names) :
    ((m.add_claude_session name command args cwd resumed).session_names).Nodup := by
  unfold TuiSessionManager.add_claude_session TuiSessionManager.session_names
  unfold TuiSessionManager.session_names at hnd hfresh
  cases hm : m.active with
  | none =>
    rw [hm] at hnd hfresh
    simp only [hm]
    simp only [List.nil_append] at hnd hfresh ⊢
    exact List.nodup_cons.mpr ⟨by simpa using hfresh, hnd⟩
  | some old_pair =>
    rw [hm] at hnd hfresh
    simp only [hm]
    simp only [List.singleton_append] at hnd hfresh
    have hperm : (m.background.map (fun p => p.name) ++ [old_pair.name]).Perm
        (old_pair.name :: m.background.map (fun p => p.name)) :=
      List.perm_append_singleton _ _
    have hmap : (m.background ++ [old_pair.detach]).map
        (fun p => p.name) = m.background.map (fun p => p.name) ++ [old_pair.name] := by
      simp [ActivePair.detach]
    simp only [List.singleton_append, hmap]
    refine List.nodup_cons.mpr ⟨?_, hperm.nodup_iff.mpr hnd⟩
    intro hmem
    exact hfresh (hperm.mem_iff.mp hmem)

/-- Witness for `c7_unique_names_amended`: adding a fresh name to the
`A`/`B`/`C` manager keeps the names distinct. -/
theorem c7_unique_names_amended_witness :
    (((managerFx (some pairA) [pairB, pairC]).add_claude_session "D" "claude" []
      "/p/D" false).session_names).Nodup := by
  have h := c7_unique_names_amended (managerFx (some pairA) [pairB, pairC])
    "D" "claude" "/p/D" [] false (by decide) (by decide)
  exact h

/-- The mask `0b11000011` clears bit 5, while `96` and `97` both have bit 5
set, so no masked byte can equal them. -/
theorem land195_ne (b : Nat) : b &&& 195 ≠ 96 ∧ b &&& 195 ≠ 97 := by
  have h5 : (b &&& 195).testBit 5 = false := by
    rw [Nat.testBit_land]
    have h195 : Nat.testBit 195 5 = false := by decide
    simp [h195]
  constructor
  · intro hEq
    rw [hEq] at h5
    exact absurd h5 (by decide)
  · intro hEq
    rw [hEq] at h5
    exact absurd h5 (by decide)

/-- A buffer consisting solely of legacy mouse events
`ESC [ M btn x y` (six bytes each). -/
def legacyBuf : List (Nat × Nat × Nat) → List Nat
  | [] => []
  | (b, x, y) :: rest => 27 :: 91 :: 77 :: b :: x :: y :: legacyBuf rest

/-- `legacyBuf` produces six bytes per event. -/
theorem legacyBuf_length : ∀ evs, (legacyBuf evs).length = 6 * evs.length
  | [] => rfl
  | (b, x, y) :: rest => by
    simp [legacyBuf, legacyBuf_length rest]
    omega

/-- The scroll parse of the empty buffer leaves the delta unchanged. -/
theorem parseScrollGo_nil (fuel : Nat) (delta : Int) :
    parseScrollGo fuel [] delta = delta := by
  cases fuel <;> simp [parseScrollGo]

/-- Walking a legacy-only buffer never changes the accumulated delta: every
event's masked button misses both `96` and `97`. -/
theorem legacyBuf_parseScrollGo : ∀ (evs : List (Nat × Nat × Nat)) (fuel : Nat)
    (delta : Int), evs.length ≤ fuel →
    parseScrollGo fuel (legacyBuf evs) delta = delta := by
  intro evs
  induction evs with
  | nil => intro fuel delta _; exact parseScrollGo_nil fuel delta
  | cons ev rest ih =>
    intro fuel delta hfuel
    obtain ⟨b, x, y⟩ := ev
    cases fuel with
    | zero => simp at hfuel
    | succ fuel =>
      have hstep : parseScrollGo (fuel + 1) (legacyBuf ((b, x, y) :: rest)) delta =
          parseScrollGo fuel (legacyBuf rest)
            (if b &&& 195 = 96 then delta + 1
             else if b &&& 195 = 97 then delta - 1 else delta) := by
        rw [legacyBuf, parseScrollGo]
        rw [if_neg (by intro hc; simp [List.take] at hc)]
        rw [if_pos ⟨by simp, rfl⟩]
        rfl
      rw [hstep, if_neg (land195_ne b).1, if_neg (land195_ne b).2]
      exact ih fuel delta (by simpa using Nat.le_of_succ_le_succ hfuel)

/-- The mouse-only walk accepts the empty tail. -/
theorem isMouseGo_nil (fuel : Nat) : isMouseGo fuel [] = true := by
  cases fuel <;> simp [isMouseGo]

/-- Every legacy-only buffer is consumed entirely by the mouse-event walk. -/
theorem legacyBuf_isMouseGo : ∀ (evs : List (Nat × Nat × Nat)) (fuel : Nat),
    evs.length ≤ fuel → isMouseGo fuel (legacyBuf evs) = true := by
  intro evs
  induction evs with
  | nil => intro fuel _; exact isMouseGo_nil fuel
  | cons ev rest ih =>
    intro fuel hfuel
    obtain ⟨b, x, y⟩ := ev
    cases fuel with
    | zero => simp at hfuel
    | succ fuel =>
      have hstep : isMouseGo (fuel + 1) (legacyBuf ((b, x, y) :: rest)) =
          isMouseGo fuel (legacyBuf rest) := by
        rw [legacyBuf, isMouseGo]
        rw [if_neg (by simp)]
        rw [if_neg (by intro hc; simp [List.take] at hc)]
        rw [if_pos ⟨by simp, rfl⟩]
        rfl
      rw [hstep]
      exact ih fuel (by simpa using Nat.le_of_succ_le_succ hfuel)

/-- C10.  Legacy-encoded mouse scroll events can never change
`scroll_offset`: no byte masked with `0b11000011` equals `96` or `97`, so
`parse_scroll_event` returns `None` on any buffer made solely of legacy
events `ESC [ M b x y`; such a buffer is then classified as mouse-only by
`is_mouse_event` and dropped, leaving the whole manager state — in
particular `scroll_offset` — unchanged. -/
theorem c10_legacy_scroll_noop (evs : List (Nat × Nat × Nat)) (hne : evs ≠ []) :
    (∀ b : Nat, b < 256 → b &&& 195 ≠ 96 ∧ b &&& 195 ≠ 97) ∧
    parse_scroll_event (legacyBuf evs) = none ∧
    is_mouse_event (legacyBuf evs) = true ∧
    ∀ m : TuiSessionManager, m.handle_normal_input (legacyBuf evs) = m := by
  have hparse : parse_scroll_event (legacyBuf evs) = none := by
    unfold parse_scroll_event
    rw [legacyBuf_parseScrollGo evs _ 0 (by rw [legacyBuf_length]; omega)]
    simp
  have hmouse : is_mouse_event (legacyBuf evs) = true := by
    unfold is_mouse_event
    rw [legacyBuf_isMouseGo evs _ (by rw [legacyBuf_length]; omega)]
    cases evs with
    | nil => exact absurd rfl hne
    | cons ev rest =>
      obtain ⟨b, x, y⟩ := ev
      simp [legacyBuf]
  refine ⟨fun b _ => land195_ne b, hparse, hmouse, ?_⟩
  intro m
  unfold TuiSessionManager.handle_normal_input
  cases hm : m.active with
  | none => rfl
  | some pair => simp [hparse, hmouse]

/-- Witness for `c10_legacy_scroll_noop` at the single legacy scroll-up event
`ESC [ M 96 1 1`. -/
theorem c10_legacy_scroll_noop_witness :
    parse_scroll_event (legacyBuf [(96, 1, 1)]) = none ∧
    is_mouse_event (legacyBuf [(96, 1, 1)]) = true ∧
    (managerFx (some pairA) []).handle_normal_input (legacyBuf [(96, 1, 1)]) =
      managerFx (some pairA) [] ∧
    (96 &&& 195 ≠ 96 ∧ 96 &&& 195 ≠ 97) := by
  have h := c10_legacy_scroll_noop [(96, 1, 1)] (by decide)
  exact ⟨h.2.1, h.2.2.1, h.2.2.2 _, h.1 96 (by decide)⟩

/-- Witness for `c6_config_path_amended` on an empty filesystem. -/
theorem c6_config_path_amended_witness :
    (Config.load "/h" (fun _ => none)).1 = Config.defaultFor "/h" ∧
    (Config.load "/h" (fun _ => none)).2 (Config.config_path "/h") =
      some (Config.defaultFor "/h") ∧
    Config.save configFx "/h" (fun _ => none) (Config.config_path "/h") = some configFx ∧
    Config.config_path "/h" ≠ pathJoin (pathJoin "/h" ".shepherd") "config.json" := by
  have h := c6_config_path_amended "/h" (fun _ => none) rfl
  exact ⟨h.1, h.2.1, h.2.2.1 configFx, h.2.2.2.2⟩

end Shepard
